import Mathlib

/-!
Shallow embedding of the goal-directed task logic of
`src/model_training/larcc_env/base_env.py` (class `LarccEnv`):
pose validation, goal sampling, reward computation and success detection.
Real numbers stand for the Python floats.  The geometry helpers imported
from the repository's `utils` module are not under `src/`, so they are
modelled from the specification (each such definition says so in its
doc comment).
-/

open Classical

namespace LarccEnvModel

/-- A 3-vector, used for the table centre and table extents
(`self.table_pos`, `self.table_size` in `LarccEnv.__init__`). -/
structure Vec3 where
  x : ℝ
  y : ℝ
  z : ℝ

/-- The state of a `LarccEnv` instance restricted to the fields the task
logic reads or writes: the construction-time configuration
(`random_start`, `distance_threshold`, `kp`, `ko`, table geometry) and
the three reward-history lists mutated by `compute_reward`. -/
structure LarccEnvState where
  random_start : Bool
  distance_threshold : ℝ
  kp : ℝ
  ko : ℝ
  pos_rewards : List ℝ
  quat_rewards : List ℝ
  bonus_rewards : List ℝ
  table_pos : Vec3
  table_size : Vec3

/-- `LarccEnv.__init__`: histories start empty; the table centre is
`[0.1, 0.16, 0.38]` and the table extents `[1.2, 0.68, 0.76]`. -/
noncomputable def init (random_start : Bool) (distance_threshold kp ko : ℝ) :
    LarccEnvState :=
  { random_start := random_start
    distance_threshold := distance_threshold
    kp := kp
    ko := ko
    pos_rewards := []
    quat_rewards := []
    bonus_rewards := []
    table_pos := ⟨0.1, 0.16, 0.38⟩
    table_size := ⟨1.2, 0.68, 0.76⟩ }

/-- The environment at its default construction arguments
(`random_start=False, distance_threshold=0.02, kp=0.5, ko=0.25`). -/
noncomputable def defaultEnv : LarccEnvState := init false 0.02 0.5 0.25

/-- Modelled from the spec: `utils.point_distance` is not under `src/`;
§4.1 gives `pointDistance(a, b) -> scalar`: Euclidean norm of `(a−b)`
over 3D points. -/
noncomputable def point_distance (a b : List ℝ) : ℝ :=
  Real.sqrt (((a.zip b).map (fun p => (p.1 - p.2) ^ 2)).sum)

/-- `np.dot` on two equal-length 1-D arrays: the sum of pairwise products. -/
noncomputable def npDot (a b : List ℝ) : ℝ :=
  ((a.zip b).map (fun p => p.1 * p.2)).sum

/-- `np.clip(v, lo, hi) = min(max(v, lo), hi)`. -/
noncomputable def npClip (v lo hi : ℝ) : ℝ := min (max v lo) hi

/-- Modelled from the spec: `utils.quaternion_to_transformation_matrix`
is not under `src/`; §4.1 gives `quaternionToTransform(q) -> 4x4 matrix`:
a homogeneous rotation matrix from `(w,x,y,z)`, used solely to extract
the rotated local z-axis in the world frame (`matrix · [0,0,1,0]`).
This is the standard rotation matrix of a unit quaternion. -/
noncomputable def quaternion_to_transformation_matrix (q : List ℝ) :
    Matrix (Fin 4) (Fin 4) ℝ :=
  let w := q.getD 0 0
  let x := q.getD 1 0
  let y := q.getD 2 0
  let z := q.getD 3 0
  !![1 - 2*(y^2 + z^2), 2*(x*y - w*z),     2*(x*z + w*y),     0;
     2*(x*y + w*z),     1 - 2*(x^2 + z^2), 2*(y*z - w*x),     0;
     2*(x*z - w*y),     2*(y*z + w*x),     1 - 2*(x^2 + y^2), 0;
     0,                 0,                 0,                 1]

/-- `np.dot(tf, np.array([0, 0, 1, 0]))`: the world-frame z-axis of the
rotation encoded by quaternion `q`, as computed in
`validate_initial_qpos` and `_sample_goal`. -/
noncomputable def zAxisOf (q : List ℝ) : Fin 4 → ℝ :=
  (quaternion_to_transformation_matrix q).mulVec ![0, 0, 1, 0]

/-- The orientation-cone predicate in its direct (non-inverted) form, as
written in `_sample_goal` (line 196): the world z-axis must satisfy
`z_axis[2] < sin(-pi/6)` and `z_axis[1] < -sin(pi/4)`. -/
noncomputable def orientationCone (w x y z : ℝ) : Prop :=
  zAxisOf [w, x, y, z] 2 < Real.sin (-(Real.pi / 6)) ∧
  zAxisOf [w, x, y, z] 1 < -Real.sin (Real.pi / 4)

/-- `LarccEnv.validate_initial_qpos` (lines 86-106), embedded branch by
branch: the length-7 shape gate, the three positional bounding-box
checks (each an early `return False`), then the literal orientation
branch, which returns `True` when
`z_axis[2] >= sin(-pi/6) or z_axis[1] >= -sin(pi/4)` and `False`
otherwise. -/
noncomputable def validate_initial_qpos (env : LarccEnvState) (qpos : List ℝ) :
    Bool :=
  if qpos.length ≠ 7 then false
  else if qpos.getD 0 0 < env.table_pos.x - env.table_size.x/2 + 0.1 ∨
          qpos.getD 0 0 > env.table_pos.x + env.table_size.x/2 - 0.1 then false
  else if qpos.getD 1 0 < env.table_pos.y - env.table_size.y/2 ∨
          qpos.getD 1 0 > env.table_pos.y + env.table_size.y/2 - 0.1 then false
  else if qpos.getD 2 0 < env.table_pos.z + env.table_size.z/2 + 0.1 ∨
          qpos.getD 2 0 > env.table_pos.z + env.table_size.z/2 + 0.6 then false
  else
    let w := qpos.getD 3 0
    let x := qpos.getD 4 0
    let y := qpos.getD 5 0
    let z := qpos.getD 6 0
    let z_axis := zAxisOf [w, x, y, z]
    if z_axis 2 ≥ Real.sin (-(Real.pi / 6)) ∨
       z_axis 1 ≥ -Real.sin (Real.pi / 4) then true
    else false

/-- `LarccEnv.compute_reward` (lines 111-126): returns the scalar reward
and the successor state whose three history lists each gained one entry.
`info` is received (the gymnasium API passes it) and never read. -/
noncomputable def compute_reward {α : Type} (env : LarccEnvState)
    (achieved_goal goal : List ℝ) (info : α) : ℝ × LarccEnvState :=
  let pos_error := point_distance (goal.take 3) (achieved_goal.take 3)
  let pos_reward := npClip (1 - pos_error) (-1) 1
  let quat_reward := max (npDot (goal.drop 3) (achieved_goal.drop 3))
    (npDot (goal.drop 3) ((achieved_goal.drop 3).map (fun v => -v)))
  let bonus_reward : ℝ :=
    if pos_reward > 1 - env.distance_threshold ∧ quat_reward > 0.98 then 1
    else 0
  (env.kp * pos_reward + env.ko * quat_reward +
     (1 - env.kp - env.ko) * bonus_reward,
   { env with
      pos_rewards := env.pos_rewards ++ [pos_reward]
      quat_rewards := env.quat_rewards ++ [quat_reward]
      bonus_rewards := env.bonus_rewards ++ [bonus_reward] })

/-- `LarccEnv._is_success` (lines 202-205):
`len(self.bonus_rewards) > 0 and self.bonus_rewards[-1] == 1`.
Its two pose arguments are received and never read. -/
noncomputable def _is_success (env : LarccEnvState)
    (achieved_goal desired_goal : List ℝ) : Bool :=
  if env.bonus_rewards.length > 0 ∧ env.bonus_rewards.getLast! = 1 then true
  else false

/-- The rejection loop of `_sample_goal` (lines 188-198), acting on the
stream of candidate quaternions produced by
`euler_to_quaternion(*random_euler_angles())` (both helpers live in the
repository's `utils` module, not under `src/`, and their draw is
implementation-chosen, so the candidates are modelled as an arbitrary
list of `(w,x,y,z)` tuples): the loop accepts the first candidate whose
world z-axis satisfies the direct orientation-cone condition.  `none`
models the loop never terminating on the given stream. -/
noncomputable def sampleGoalLoop (quats : List (ℝ × ℝ × ℝ × ℝ)) :
    Option (ℝ × ℝ × ℝ × ℝ) :=
  match quats with
  | [] => none
  | q :: rest =>
    if orientationCone q.1 q.2.1 q.2.2.1 q.2.2.2 then some q
    else sampleGoalLoop rest

/-- `LarccEnv._sample_goal` (lines 181-200).  `u0`, `u1`, `u2` are the
values returned by the three `random.uniform` calls that build
`goal_pos` — drawn once, before the rejection loop.  The returned pose
is `np.concatenate((goal_pos, goal_quat))` with `goal_quat` the first
accepted candidate quaternion. -/
noncomputable def _sample_goal (env : LarccEnvState) (u0 u1 u2 : ℝ)
    (quats : List (ℝ × ℝ × ℝ × ℝ)) : Option (List ℝ) :=
  let goal_pos : List ℝ :=
    [env.table_pos.x + u0,
     env.table_pos.y + u1,
     env.table_pos.z + env.table_size.z/2 + u2]
  (sampleGoalLoop quats).map
    (fun q => goal_pos ++ [q.1, q.2.1, q.2.2.1, q.2.2.2])

/-- Spec-side definition (for the refinement claim about the reward
formula), following §4.4's words: the position reward is
`clip(1 − pointDistance(desired.pos, achieved.pos), −1, 1)`, written
out over the six position coordinates (Euclidean distance). -/
noncomputable def posRewardSpec (apx apy apz gpx gpy gpz : ℝ) : ℝ :=
  npClip (1 - Real.sqrt ((gpx - apx)^2 + (gpy - apy)^2 + (gpz - apz)^2))
    (-1) 1

/-- Spec-side definition, following §4.4's words: the orientation reward
is `max(dot(desired.quat, achieved.quat), dot(desired.quat,
−achieved.quat))`, written out over the eight quaternion
coordinates. -/
noncomputable def quatRewardSpec (aw ax ay az gw gx gy gz : ℝ) : ℝ :=
  max (gw*aw + gx*ax + gy*ay + gz*az)
    (gw*(-aw) + gx*(-ax) + gy*(-ay) + gz*(-az))

/-- Spec-side definition, following §4.4's words: the bonus reward is
`1 if posReward > 1 − distanceThreshold AND quatReward > 0.98 else 0` —
the comparison is against `1 − distanceThreshold` on the position
reward, not a raw distance against `distanceThreshold`. -/
noncomputable def bonusRewardSpec (distance_threshold posR quatR : ℝ) : ℝ :=
  if posR > 1 - distance_threshold ∧ quatR > 0.98 then 1 else 0

/-- The states of one `LarccEnv` instance reachable from construction by
`compute_reward` calls — the only operation of the component that
mutates the reward histories (`validate_initial_qpos`, `_sample_goal`
and `_is_success` read, never write). -/
inductive Reachable : LarccEnvState → Prop
  | construct (random_start : Bool) (distance_threshold kp ko : ℝ) :
      Reachable (init random_start distance_threshold kp ko)
  | step {α : Type} (env : LarccEnvState) (achieved_goal goal : List ℝ)
      (info : α) (h : Reachable env) :
      Reachable (compute_reward env achieved_goal goal info).2

end LarccEnvModel

namespace LarccEnvModel

/-! ## Helper lemmas -/

/-- Evaluating the z-axis extraction: it is the third column of the
rotation matrix of `(w, x, y, z)`. -/
theorem zAxisOf_eq (w x y z : ℝ) :
    zAxisOf [w, x, y, z] =
      ![2*(x*z + w*y), 2*(y*z - w*x), 1 - 2*(x^2 + y^2), 0] := by
  funext i
  fin_cases i <;>
    simp [zAxisOf, quaternion_to_transformation_matrix, Matrix.mulVec,
      Matrix.dotProduct, Fin.sum_univ_four]

/-- Python's `l[-1]` on a list that just received an append. -/
theorem getLast!_append_singleton (l : List ℝ) (b : ℝ) :
    (l ++ [b]).getLast! = b := by
  induction l with
  | nil => rfl
  | cons a t ih =>
    rw [List.cons_append]
    cases t with
    | nil => rfl
    | cons c u => simpa using ih

/-- Evaluating `point_distance` on explicit 3-element lists. -/
theorem point_distance_eval (a b c d e f : ℝ) :
    point_distance [a, b, c] [d, e, f] =
      Real.sqrt ((a - d)^2 + (b - e)^2 + (c - f)^2) := by
  unfold point_distance
  norm_num [List.zip_cons_cons]
  ring_nf

/-- Evaluating `npDot` on explicit 4-element lists. -/
theorem npDot_eval (a b c d e f g h : ℝ) :
    npDot [a, b, c, d] [e, f, g, h] = a*e + b*f + c*g + d*h := by
  unfold npDot
  norm_num [List.zip_cons_cons]
  ring

/-! ## Claim theorems -/

/-- Claim C8: a pose whose length is not exactly 7 is rejected by
`validate_initial_qpos` before any bounds comparison or
quaternion-to-transform conversion (the shape gate is the first branch
of the embedded definition, so the result is `false` for every
environment and every geometric content of the list). -/
theorem validate_rejects_wrong_length (env : LarccEnvState) (qpos : List ℝ)
    (h : qpos.length ≠ 7) : validate_initial_qpos env qpos = false := by
  unfold validate_initial_qpos
  rw [if_pos h]

/-- Witness for C8 at the empty pose. -/
theorem validate_rejects_wrong_length_witness :
    ([] : List ℝ).length ≠ 7 ∧
      validate_initial_qpos defaultEnv [] = false :=
  ⟨by decide, validate_rejects_wrong_length defaultEnv [] (by decide)⟩

/-- Claim C7: a 7-element pose whose position violates any of the six
bounding-box inequalities is declared invalid by
`validate_initial_qpos`, regardless of its quaternion part (so the
orientation check cannot influence the outcome). -/
theorem validate_rejects_out_of_bounds_position (env : LarccEnvState)
    (qpos : List ℝ) (hlen : qpos.length = 7)
    (hviol :
      qpos.getD 0 0 < env.table_pos.x - env.table_size.x/2 + 0.1 ∨
      qpos.getD 0 0 > env.table_pos.x + env.table_size.x/2 - 0.1 ∨
      qpos.getD 1 0 < env.table_pos.y - env.table_size.y/2 ∨
      qpos.getD 1 0 > env.table_pos.y + env.table_size.y/2 - 0.1 ∨
      qpos.getD 2 0 < env.table_pos.z + env.table_size.z/2 + 0.1 ∨
      qpos.getD 2 0 > env.table_pos.z + env.table_size.z/2 + 0.6) :
    validate_initial_qpos env qpos = false := by
  unfold validate_initial_qpos
  split_ifs with h1 h2 h3 h4 h5 <;> first | rfl | (exfalso; tauto)

/-- Witness for C7: an x-coordinate far beyond the table edge. -/
theorem validate_rejects_out_of_bounds_position_witness :
    ([(5 : ℝ), 0.16, 1, 1, 0, 0, 0]).length = 7 ∧
      ((5 : ℝ) > defaultEnv.table_pos.x + defaultEnv.table_size.x/2 - 0.1) ∧
      validate_initial_qpos defaultEnv [5, 0.16, 1, 1, 0, 0, 0] = false := by
  refine ⟨by decide, by norm_num [defaultEnv, init], ?_⟩
  exact validate_rejects_out_of_bounds_position defaultEnv _ (by decide)
    (Or.inr (Or.inl (by norm_num [defaultEnv, init])))

/-- Claim C3: on every pair of 7-element poses `compute_reward` returns
`kp·posReward + ko·quatReward + (1−kp−ko)·bonusReward` with the three
terms exactly as the spec words them (`posRewardSpec`,
`quatRewardSpec`, `bonusRewardSpec`), and appends exactly those three
terms to the histories; in particular the bonus predicate compares the
position reward against `1 − distanceThreshold`. -/
theorem compute_reward_formula {α : Type} (env : LarccEnvState)
    (apx apy apz aw ax ay az gpx gpy gpz gw gx gy gz : ℝ) (info : α) :
    compute_reward env [apx, apy, apz, aw, ax, ay, az]
        [gpx, gpy, gpz, gw, gx, gy, gz] info =
      (env.kp * posRewardSpec apx apy apz gpx gpy gpz +
         env.ko * quatRewardSpec aw ax ay az gw gx gy gz +
         (1 - env.kp - env.ko) *
           bonusRewardSpec env.distance_threshold
             (posRewardSpec apx apy apz gpx gpy gpz)
             (quatRewardSpec aw ax ay az gw gx gy gz),
       { env with
          pos_rewards :=
            env.pos_rewards ++ [posRewardSpec apx apy apz gpx gpy gpz]
          quat_rewards :=
            env.quat_rewards ++ [quatRewardSpec aw ax ay az gw gx gy gz]
          bonus_rewards :=
            env.bonus_rewards ++
              [bonusRewardSpec env.distance_threshold
                (posRewardSpec apx apy apz gpx gpy gpz)
                (quatRewardSpec aw ax ay az gw gx gy gz)] }) := by
  simp only [compute_reward]
  rw [show ([gpx, gpy, gpz, gw, gx, gy, gz] : List ℝ).take 3 =
        [gpx, gpy, gpz] from rfl,
    show ([apx, apy, apz, aw, ax, ay, az] : List ℝ).take 3 =
        [apx, apy, apz] from rfl,
    show ([gpx, gpy, gpz, gw, gx, gy, gz] : List ℝ).drop 3 =
        [gw, gx, gy, gz] from rfl,
    show ([apx, apy, apz, aw, ax, ay, az] : List ℝ).drop 3 =
        [aw, ax, ay, az] from rfl,
    show ([aw, ax, ay, az] : List ℝ).map (fun v => -v) =
        [-aw, -ax, -ay, -az] from rfl,
    point_distance_eval, npDot_eval, npDot_eval]
  unfold posRewardSpec quatRewardSpec bonusRewardSpec
  norm_num

/-- Claim C5: when the achieved and the desired pose coincide and the
quaternion is unit, `compute_reward` yields position reward 1,
orientation reward 1, bonus reward 1 (the three history appends) and a
total reward of `kp·1 + ko·1 + (1−kp−ko)·1 = 1`.  The distance
threshold must be positive (as its default `0.02` is), otherwise the
strict bonus comparison `posReward > 1 − distanceThreshold` fails. -/
theorem compute_reward_same_pose {α : Type} (env : LarccEnvState)
    (px py pz w x y z : ℝ) (info : α)
    (hunit : w^2 + x^2 + y^2 + z^2 = 1)
    (ht : 0 < env.distance_threshold) :
    compute_reward env [px, py, pz, w, x, y, z]
        [px, py, pz, w, x, y, z] info =
      (1,
       { env with
          pos_rewards := env.pos_rewards ++ [1]
          quat_rewards := env.quat_rewards ++ [1]
          bonus_rewards := env.bonus_rewards ++ [1] }) ∧
    env.kp * 1 + env.ko * 1 + (1 - env.kp - env.ko) * 1 = 1 := by
  have hd : point_distance [px, py, pz] [px, py, pz] = 0 := by
    rw [point_distance_eval]
    simp
  have hq : npDot [w, x, y, z] [w, x, y, z] = 1 := by
    rw [npDot_eval, ← hunit]
    ring
  have hq' : npDot [w, x, y, z] [-w, -x, -y, -z] = -1 := by
    rw [npDot_eval]
    linear_combination -hunit
  have hclip : npClip (1 - (0:ℝ)) (-1) 1 = 1 := by
    unfold npClip
    norm_num
  refine ⟨?_, by ring⟩
  simp only [compute_reward]
  rw [show ([px, py, pz, w, x, y, z] : List ℝ).take 3 = [px, py, pz] from rfl,
    show ([px, py, pz, w, x, y, z] : List ℝ).drop 3 = [w, x, y, z] from rfl,
    show ([w, x, y, z] : List ℝ).map (fun v => -v) = [-w, -x, -y, -z] from rfl,
    hd, hq, hq', hclip]
  rw [show max (1:ℝ) (-1) = 1 by norm_num]
  rw [if_pos ⟨by linarith, by norm_num⟩]
  rw [Prod.mk.injEq]
  exact ⟨by ring, rfl⟩

/-- Witness for C5 at the origin pose with the identity quaternion and
the default configuration. -/
theorem compute_reward_same_pose_witness :
    ((1:ℝ)^2 + 0^2 + 0^2 + 0^2 = 1) ∧ (0 < defaultEnv.distance_threshold) ∧
    compute_reward defaultEnv [0, 0, 0, 1, 0, 0, 0] [0, 0, 0, 1, 0, 0, 0]
        (0 : ℕ) =
      (1,
       { defaultEnv with
          pos_rewards := defaultEnv.pos_rewards ++ [1]
          quat_rewards := defaultEnv.quat_rewards ++ [1]
          bonus_rewards := defaultEnv.bonus_rewards ++ [1] }) :=
  ⟨by norm_num, by norm_num [defaultEnv, init],
   (compute_reward_same_pose defaultEnv 0 0 0 1 0 0 0 (0 : ℕ) (by norm_num)
     (by norm_num [defaultEnv, init])).1⟩

/-- Claim C6: `compute_reward` is invariant under negating the achieved
pose's quaternion — the returned scalar and the successor state
(including all three appended history entries) are identical. -/
theorem compute_reward_double_cover {α : Type} (env : LarccEnvState)
    (apx apy apz aw ax ay az gpx gpy gpz gw gx gy gz : ℝ) (info : α) :
    compute_reward env [apx, apy, apz, -aw, -ax, -ay, -az]
        [gpx, gpy, gpz, gw, gx, gy, gz] info =
      compute_reward env [apx, apy, apz, aw, ax, ay, az]
        [gpx, gpy, gpz, gw, gx, gy, gz] info := by
  simp only [compute_reward]
  rw [show ([gpx, gpy, gpz, gw, gx, gy, gz] : List ℝ).take 3 =
        [gpx, gpy, gpz] from rfl,
    show ([apx, apy, apz, -aw, -ax, -ay, -az] : List ℝ).take 3 =
        [apx, apy, apz] from rfl,
    show ([apx, apy, apz, aw, ax, ay, az] : List ℝ).take 3 =
        [apx, apy, apz] from rfl,
    show ([gpx, gpy, gpz, gw, gx, gy, gz] : List ℝ).drop 3 =
        [gw, gx, gy, gz] from rfl,
    show ([apx, apy, apz, -aw, -ax, -ay, -az] : List ℝ).drop 3 =
        [-aw, -ax, -ay, -az] from rfl,
    show ([apx, apy, apz, aw, ax, ay, az] : List ℝ).drop 3 =
        [aw, ax, ay, az] from rfl,
    show ([-aw, -ax, -ay, -az] : List ℝ).map (fun v => -v) =
        [-(-aw), -(-ax), -(-ay), -(-az)] from rfl,
    show ([aw, ax, ay, az] : List ℝ).map (fun v => -v) =
        [-aw, -ax, -ay, -az] from rfl,
    npDot_eval, npDot_eval, npDot_eval]
  rw [show gw * -(-aw) + gx * -(-ax) + gy * -(-ay) + gz * -(-az) =
        gw * aw + gx * ax + gy * ay + gz * az from by ring]
  rw [max_comm (gw * -aw + gx * -ax + gy * -ay + gz * -az)]

/-- Claim C10: the scalar `compute_reward` returns and the three values
it appends depend only on the poses and the construction-time
configuration (`kp`, `ko`, `distance_threshold`); neither the `info`
argument (which may even have a different type) nor the accumulated
histories influence them. -/
theorem compute_reward_info_noninterference {α β : Type}
    (env1 env2 : LarccEnvState) (achieved_goal goal : List ℝ)
    (info1 : α) (info2 : β)
    (hkp : env1.kp = env2.kp) (hko : env1.ko = env2.ko)
    (ht : env1.distance_threshold = env2.distance_threshold) :
    (compute_reward env1 achieved_goal goal info1).1 =
      (compute_reward env2 achieved_goal goal info2).1 ∧
    ∃ pr qr br : ℝ,
      (compute_reward env1 achieved_goal goal info1).2.pos_rewards =
        env1.pos_rewards ++ [pr] ∧
      (compute_reward env2 achieved_goal goal info2).2.pos_rewards =
        env2.pos_rewards ++ [pr] ∧
      (compute_reward env1 achieved_goal goal info1).2.quat_rewards =
        env1.quat_rewards ++ [qr] ∧
      (compute_reward env2 achieved_goal goal info2).2.quat_rewards =
        env2.quat_rewards ++ [qr] ∧
      (compute_reward env1 achieved_goal goal info1).2.bonus_rewards =
        env1.bonus_rewards ++ [br] ∧
      (compute_reward env2 achieved_goal goal info2).2.bonus_rewards =
        env2.bonus_rewards ++ [br] := by
  refine ⟨?_, ?_⟩
  · simp only [compute_reward]
    rw [hkp, hko, ht]
  · refine
      ⟨npClip (1 - point_distance (goal.take 3) (achieved_goal.take 3))
          (-1) 1,
        max (npDot (goal.drop 3) (achieved_goal.drop 3))
          (npDot (goal.drop 3) ((achieved_goal.drop 3).map (fun v => -v))),
        if npClip (1 - point_distance (goal.take 3) (achieved_goal.take 3))
              (-1) 1 > 1 - env1.distance_threshold ∧
            max (npDot (goal.drop 3) (achieved_goal.drop 3))
              (npDot (goal.drop 3)
                ((achieved_goal.drop 3).map (fun v => -v))) > 0.98
          then 1 else 0,
        rfl, rfl, rfl, rfl, rfl, ?_⟩
    simp only [compute_reward]
    rw [ht]

/-- Witness for C10: the default environment against a differently
configured (random-start) environment carrying the same reward weights
and threshold, with `info` arguments of different types. -/
theorem compute_reward_info_noninterference_witness :
    (defaultEnv.kp = (init true 0.02 0.5 0.25).kp) ∧
    ((compute_reward defaultEnv [0, 0, 0, 1, 0, 0, 0] [0, 0, 0, 1, 0, 0, 0]
        (37 : ℕ)).1 =
      (compute_reward (init true 0.02 0.5 0.25) [0, 0, 0, 1, 0, 0, 0]
        [0, 0, 0, 1, 0, 0, 0] true).1) :=
  ⟨rfl,
   (compute_reward_info_noninterference defaultEnv (init true 0.02 0.5 0.25)
     [0, 0, 0, 1, 0, 0, 0] [0, 0, 0, 1, 0, 0, 0] (37 : ℕ) true
     rfl rfl rfl).1⟩

/-- Claim C4: `_is_success` is false on a freshly constructed
environment (empty bonus history); after a `compute_reward` call it is
true exactly when the bonus term that call appended equals 1; and it
never reads its two pose arguments. -/
theorem is_success_reads_last_bonus :
    (∀ (rs : Bool) (t kp ko : ℝ) (a d : List ℝ),
      _is_success (init rs t kp ko) a d = false) ∧
    (∀ (α : Type) (env : LarccEnvState) (ach g : List ℝ) (info : α)
        (a d : List ℝ),
      ∃ b : ℝ,
        (compute_reward env ach g info).2.bonus_rewards =
          env.bonus_rewards ++ [b] ∧
        (_is_success (compute_reward env ach g info).2 a d = true ↔ b = 1)) ∧
    (∀ (env : LarccEnvState) (a d a' d' : List ℝ),
      _is_success env a d = _is_success env a' d') := by
  refine ⟨?_, ?_, ?_⟩
  · intro rs t kp ko a d
    simp [_is_success, init]
  · intro α env ach g info a d
    refine
      ⟨if npClip (1 - point_distance (g.take 3) (ach.take 3)) (-1) 1 >
            1 - env.distance_threshold ∧
          max (npDot (g.drop 3) (ach.drop 3))
            (npDot (g.drop 3) ((ach.drop 3).map (fun v => -v))) > 0.98
        then 1 else 0, rfl, ?_⟩
    simp only [_is_success, compute_reward]
    split_ifs with h1 h2 h3 <;> simp_all [getLast!_append_singleton]
  · intro env a d a' d'
    rfl

/-- Claim C9: the three reward histories start empty at construction,
every `compute_reward` call appends exactly one element to each of
them, and every state reachable from construction through the only
mutating operation keeps the three lengths equal. -/
theorem reward_history_invariant :
    (∀ (rs : Bool) (t kp ko : ℝ),
      (init rs t kp ko).pos_rewards = [] ∧
      (init rs t kp ko).quat_rewards = [] ∧
      (init rs t kp ko).bonus_rewards = []) ∧
    (∀ (α : Type) (env : LarccEnvState) (ach g : List ℝ) (info : α),
      ∃ pr qr br : ℝ,
        (compute_reward env ach g info).2.pos_rewards =
          env.pos_rewards ++ [pr] ∧
        (compute_reward env ach g info).2.quat_rewards =
          env.quat_rewards ++ [qr] ∧
        (compute_reward env ach g info).2.bonus_rewards =
          env.bonus_rewards ++ [br]) ∧
    (∀ env : LarccEnvState, Reachable env →
      env.pos_rewards.length = env.quat_rewards.length ∧
      env.quat_rewards.length = env.bonus_rewards.length) := by
  refine ⟨fun rs t kp ko => ⟨rfl, rfl, rfl⟩,
    fun α env ach g info => ⟨_, _, _, rfl, rfl, rfl⟩, ?_⟩
  intro env h
  induction h with
  | construct rs t kp ko => exact ⟨rfl, rfl⟩
  | step env ach g info h ih =>
    simp only [compute_reward, List.length_append, List.length_singleton]
    omega

/-- Witness for C9: the invariant instantiated at a freshly constructed
environment and at the state after one `compute_reward` call on it. -/
theorem reward_history_invariant_witness :
    Reachable (compute_reward defaultEnv [0, 0, 0, 1, 0, 0, 0]
        [0, 0, 0, 1, 0, 0, 0] (0 : ℕ)).2 ∧
    ((compute_reward defaultEnv [0, 0, 0, 1, 0, 0, 0]
        [0, 0, 0, 1, 0, 0, 0] (0 : ℕ)).2.pos_rewards.length =
      (compute_reward defaultEnv [0, 0, 0, 1, 0, 0, 0]
        [0, 0, 0, 1, 0, 0, 0] (0 : ℕ)).2.quat_rewards.length) := by
  have hr : Reachable (compute_reward defaultEnv [0, 0, 0, 1, 0, 0, 0]
      [0, 0, 0, 1, 0, 0, 0] (0 : ℕ)).2 :=
    Reachable.step _ _ _ _ (Reachable.construct false 0.02 0.5 0.25)
  exact ⟨hr, (reward_history_invariant.2.2 _ hr).1⟩

/-- Soundness of the rejection loop: a returned candidate satisfies the
direct orientation-cone condition. -/
theorem sampleGoalLoop_sound (quats : List (ℝ × ℝ × ℝ × ℝ))
    (q : ℝ × ℝ × ℝ × ℝ) (h : sampleGoalLoop quats = some q) :
    orientationCone q.1 q.2.1 q.2.2.1 q.2.2.2 := by
  induction quats with
  | nil => simp [sampleGoalLoop] at h
  | cons p rest ih =>
    rw [sampleGoalLoop] at h
    split_ifs at h with hc
    · injection h with h'
      subst h'
      exact hc
    · exact ih h

/-- A concrete quaternion inside the sampler's acceptance cone. -/
theorem orientationCone_sample : orientationCone 0 0 1 (-1) := by
  have hs : Real.sqrt 2 < 2 := by
    nlinarith [Real.sq_sqrt (by norm_num : (0:ℝ) ≤ 2), Real.sqrt_nonneg 2]
  constructor
  · rw [zAxisOf_eq, Real.sin_neg, Real.sin_pi_div_six]
    norm_num
  · rw [zAxisOf_eq, Real.sin_pi_div_four]
    simp only [Matrix.cons_val_one, Matrix.head_cons]
    nlinarith [hs]

/-- Claim C2: every pose returned by `_sample_goal` consists of the
position drawn once before the rejection loop (hence untouched by the
loop) followed by a quaternion satisfying the orientation-cone
predicate exactly, and its position lies in the stated box whenever the
three uniform draws are within their ranges. -/
theorem sample_goal_spec (env : LarccEnvState) (u0 u1 u2 : ℝ)
    (quats : List (ℝ × ℝ × ℝ × ℝ)) (g : List ℝ)
    (h0 : -env.table_size.x/2 + 0.1 ≤ u0) (h0' : u0 ≤ env.table_size.x/2 - 0.1)
    (h1 : -env.table_size.y/2 ≤ u1) (h1' : u1 ≤ env.table_size.y/2 - 0.1)
    (h2 : (0.1 : ℝ) ≤ u2) (h2' : u2 ≤ 0.6)
    (hg : _sample_goal env u0 u1 u2 quats = some g) :
    ∃ w x y z : ℝ,
      g = [env.table_pos.x + u0, env.table_pos.y + u1,
           env.table_pos.z + env.table_size.z/2 + u2, w, x, y, z] ∧
      orientationCone w x y z ∧
      env.table_pos.x - env.table_size.x/2 + 0.1 ≤ env.table_pos.x + u0 ∧
      env.table_pos.x + u0 ≤ env.table_pos.x + env.table_size.x/2 - 0.1 ∧
      env.table_pos.y - env.table_size.y/2 ≤ env.table_pos.y + u1 ∧
      env.table_pos.y + u1 ≤ env.table_pos.y + env.table_size.y/2 - 0.1 ∧
      env.table_pos.z + env.table_size.z/2 + 0.1 ≤
        env.table_pos.z + env.table_size.z/2 + u2 ∧
      env.table_pos.z + env.table_size.z/2 + u2 ≤
        env.table_pos.z + env.table_size.z/2 + 0.6 := by
  unfold _sample_goal at hg
  rw [Option.map_eq_some'] at hg
  obtain ⟨q, hq, hgq⟩ := hg
  have hcone := sampleGoalLoop_sound quats q hq
  refine ⟨q.1, q.2.1, q.2.2.1, q.2.2.2, ?_, hcone, ?_, ?_, ?_, ?_, ?_, ?_⟩ <;>
    first
      | (subst hgq; rfl)
      | linarith

/-- Witness for C2: the default environment, in-range draws
`(0, 0, 0.2)` and a single candidate quaternion inside the cone. -/
theorem sample_goal_spec_witness :
    _sample_goal defaultEnv 0 0 0.2 [(0, 0, 1, -1)] =
      some [defaultEnv.table_pos.x + 0, defaultEnv.table_pos.y + 0,
            defaultEnv.table_pos.z + defaultEnv.table_size.z/2 + 0.2,
            0, 0, 1, -1] ∧
    ∃ w x y z : ℝ,
      ([defaultEnv.table_pos.x + 0, defaultEnv.table_pos.y + 0,
        defaultEnv.table_pos.z + defaultEnv.table_size.z/2 + 0.2,
        0, 0, 1, -1] : List ℝ) =
        [defaultEnv.table_pos.x + 0, defaultEnv.table_pos.y + 0,
         defaultEnv.table_pos.z + defaultEnv.table_size.z/2 + 0.2,
         w, x, y, z] ∧
      orientationCone w x y z ∧
      defaultEnv.table_pos.x - defaultEnv.table_size.x/2 + 0.1 ≤
        defaultEnv.table_pos.x + 0 ∧
      defaultEnv.table_pos.x + 0 ≤
        defaultEnv.table_pos.x + defaultEnv.table_size.x/2 - 0.1 ∧
      defaultEnv.table_pos.y - defaultEnv.table_size.y/2 ≤
        defaultEnv.table_pos.y + 0 ∧
      defaultEnv.table_pos.y + 0 ≤
        defaultEnv.table_pos.y + defaultEnv.table_size.y/2 - 0.1 ∧
      defaultEnv.table_pos.z + defaultEnv.table_size.z/2 + 0.1 ≤
        defaultEnv.table_pos.z + defaultEnv.table_size.z/2 + 0.2 ∧
      defaultEnv.table_pos.z + defaultEnv.table_size.z/2 + 0.2 ≤
        defaultEnv.table_pos.z + defaultEnv.table_size.z/2 + 0.6 := by
  have hg : _sample_goal defaultEnv 0 0 0.2 [(0, 0, 1, -1)] =
      some [defaultEnv.table_pos.x + 0, defaultEnv.table_pos.y + 0,
            defaultEnv.table_pos.z + defaultEnv.table_size.z/2 + 0.2,
            0, 0, 1, -1] := by
    unfold _sample_goal sampleGoalLoop
    rw [if_pos orientationCone_sample]
    rfl
  exact ⟨hg,
    sample_goal_spec defaultEnv 0 0 0.2 [(0, 0, 1, -1)] _
      (by norm_num [defaultEnv, init]) (by norm_num [defaultEnv, init])
      (by norm_num [defaultEnv, init]) (by norm_num [defaultEnv, init])
      (by norm_num) (by norm_num) hg⟩

/-- Claim C1 (code evaluation): the identity quaternion points the local
z-axis straight up, so the orientation-cone condition of the claim
fails, yet `validate_initial_qpos` accepts the pose — the source's
orientation branch returns `True` exactly when the condition is not
met. -/
theorem validate_orientation_branch_inverted :
    validate_initial_qpos defaultEnv [0.1, 0.16, 1, 1, 0, 0, 0] = true ∧
    ¬ orientationCone 1 0 0 0 := by
  constructor
  · unfold validate_initial_qpos
    norm_num [defaultEnv, init, zAxisOf_eq, Real.sin_neg,
      Real.sin_pi_div_six]
  · intro h
    have h1 := h.1
    rw [zAxisOf_eq] at h1
    rw [Real.sin_neg, Real.sin_pi_div_six] at h1
    norm_num at h1

end LarccEnvModel
